import Mathlib

/-!
Verification development for the hellogpt voice-assistant session
orchestrator.  Each Python component of the core is shallowly embedded as
pure Lean definitions over explicit state; bytes are modelled as `Nat`
(one entry per byte), wall-clock timestamps as `ℚ`, and JSON values as an
inductive type preserving key order (Python dicts preserve insertion
order).
-/

namespace HelloGpt

/-! ## Playback Buffer (`src/audio/speaker_player.py`, class `SpeakerPlayer`)

State: `_q` is the bounded producer queue (`queue.Queue(maxsize=512)` of
byte strings) and `_buf` the internal accumulator (`bytearray`).  The
playback-callback thread and the producer thread are serialized by
`_buf_lock`; we model each operation as an atomic state transformer. -/

structure SpeakerState where
  q : List (List Nat)
  buf : List Nat
deriving DecidableEq, Repr

def speakerInit : SpeakerState := ⟨[], []⟩

/-- The `while len(self._buf) < n` loop of `SpeakerPlayer._read_bytes`:
pull chunks off the queue into the accumulator until `n` bytes are
buffered or the queue is empty. -/
def fill_buf (buf : List Nat) (q : List (List Nat)) (n : Nat) : List Nat × List (List Nat) :=
  if n ≤ buf.length then (buf, q)
  else
    match q with
    | [] => (buf, [])
    | c :: rest => fill_buf (buf ++ c) rest n

/-- `SpeakerPlayer._read_bytes(n)`: returns at most `n` bytes (the data
actually available), consuming them from the accumulator. -/
def read_bytes (s : SpeakerState) (n : Nat) : List Nat × SpeakerState :=
  let (buf, q) := fill_buf s.buf s.q n
  (buf.take n, ⟨q, buf.drop n⟩)

/-- The playback callback of `SpeakerPlayer.start` (`_callback`): reads
`needed_bytes` and zero-pads any shortfall, so the hardware always gets a
full frame.  This is the spec's `readFrame(n)`. -/
def read_frame (s : SpeakerState) (n : Nat) : List Nat × SpeakerState :=
  let (chunk, s') := read_bytes s n
  (chunk ++ List.replicate (n - chunk.length) 0, s')

/-- `SpeakerPlayer.enqueue`: empty input returns immediately; a full
queue (512 chunks) drops the newest chunk with a log warning. -/
def enqueue (s : SpeakerState) (pcm : List Nat) : SpeakerState :=
  if pcm = [] then s
  else if 512 ≤ s.q.length then s
  else ⟨s.q ++ [pcm], s.buf⟩

/-- `SpeakerPlayer.clear`: drops the accumulator and drains the queue. -/
def clear (_s : SpeakerState) : SpeakerState := ⟨[], []⟩

lemma fill_buf_flatten (buf : List Nat) (q : List (List Nat)) (n : Nat) :
    (fill_buf buf q n).1 ++ (fill_buf buf q n).2.flatten = buf ++ q.flatten := by
  induction q generalizing buf with
  | nil =>
    rw [fill_buf]
    split <;> simp
  | cons c rest ih =>
    rw [fill_buf]
    split
    · simp
    · simpa [List.append_assoc] using ih (buf ++ c)

lemma read_bytes_length_le (s : SpeakerState) (n : Nat) :
    (read_bytes s n).1.length ≤ n := by
  simp [read_bytes]

lemma read_frame_length (s : SpeakerState) (n : Nat) :
    (read_frame s n).1.length = n := by
  have h := read_bytes_length_le s n
  simp [read_frame]
  omega

lemma read_frame_after_clear (s : SpeakerState) (n : Nat) :
    (read_frame (clear s) n).1 = List.replicate n 0 := by
  cases n with
  | zero => simp [read_frame, read_bytes, clear, fill_buf]
  | succ m => simp [read_frame, read_bytes, clear, fill_buf]

lemma read_frame_state_eq (s : SpeakerState) (n : Nat) :
    (read_frame s n).2 = (read_bytes s n).2 := rfl

/-! Operation sequences on the Playback Buffer: the producer enqueues,
the playback callback reads frames. -/

inductive SpeakerOp where
  | enq (pcm : List Nat)
  | read (n : Nat)
deriving DecidableEq, Repr

/-- Run a sequence of operations from a state; returns the final state,
the list of (zero-padded) frames returned by the playback callback, and
the list of unpadded data portions delivered by `_read_bytes`. -/
def speakerRun : SpeakerState → List SpeakerOp → SpeakerState × List (List Nat) × List (List Nat)
  | s, [] => (s, [], [])
  | s, SpeakerOp.enq pcm :: rest => speakerRun (enqueue s pcm) rest
  | s, SpeakerOp.read n :: rest =>
    let res := speakerRun (read_bytes s n).2 rest
    (res.1, (read_frame s n).1 :: res.2.1, (read_bytes s n).1 :: res.2.2)

/-- `true` iff no (non-empty) enqueue in the sequence meets a full
512-chunk queue, i.e. the bounded queue never overflows. -/
def speakerRunOk : SpeakerState → List SpeakerOp → Bool
  | _, [] => true
  | s, SpeakerOp.enq pcm :: rest =>
    (pcm.isEmpty || decide (s.q.length < 512)) && speakerRunOk (enqueue s pcm) rest
  | s, SpeakerOp.read n :: rest => speakerRunOk (read_bytes s n).2 rest

/-- Concatenation of all enqueued byte strings in an operation sequence. -/
def enqConcat (ops : List SpeakerOp) : List Nat :=
  (ops.filterMap (fun op => match op with
    | SpeakerOp.enq pcm => some pcm
    | SpeakerOp.read _ => none)).flatten

/-- The property C10 asserts of a run: the concatenated reads are a
prefix of the concatenated enqueues followed only by zero bytes. -/
def prefix_zero_pad (enqC reads : List Nat) : Prop :=
  ∃ k, reads = enqC.take k ++ List.replicate (reads.length - k) 0

lemma enqueue_conserves (s : SpeakerState) (pcm : List Nat)
    (h : pcm.isEmpty || decide (s.q.length < 512)) :
    (enqueue s pcm).buf ++ (enqueue s pcm).q.flatten = s.buf ++ s.q.flatten ++ pcm := by
  rcases Bool.or_eq_true_iff.1 h with h1 | h1
  · have : pcm = [] := by simpa [List.isEmpty_iff] using h1
    simp [enqueue, this]
  · have hlt : s.q.length < 512 := of_decide_eq_true h1
    by_cases hnil : pcm = []
    · simp [enqueue, hnil]
    · simp [enqueue, hnil, Nat.not_le.2 hlt]

lemma read_bytes_conserves (s : SpeakerState) (n : Nat) :
    (read_bytes s n).1 ++ (read_bytes s n).2.buf ++ (read_bytes s n).2.q.flatten
      = s.buf ++ s.q.flatten := by
  have h := fill_buf_flatten s.buf s.q n
  simp only [read_bytes]
  calc (fill_buf s.buf s.q n).1.take n ++ (fill_buf s.buf s.q n).1.drop n
        ++ (fill_buf s.buf s.q n).2.flatten
      = (fill_buf s.buf s.q n).1 ++ (fill_buf s.buf s.q n).2.flatten := by
        rw [List.take_append_drop]
    _ = s.buf ++ s.q.flatten := h

/-- Data conservation along any overflow-free run: bytes already read
out, plus bytes still buffered or queued, are exactly the initial
contents plus everything enqueued, in order. -/
lemma speakerRun_conserves (ops : List SpeakerOp) :
    ∀ s : SpeakerState, speakerRunOk s ops = true →
      (speakerRun s ops).2.2.flatten ++ (speakerRun s ops).1.buf
        ++ (speakerRun s ops).1.q.flatten
      = s.buf ++ s.q.flatten ++ enqConcat ops := by
  induction ops with
  | nil => intro s _; simp [speakerRun, enqConcat]
  | cons op rest ih =>
    intro s hok
    cases op with
    | enq pcm =>
      rw [speakerRunOk] at hok
      have h1 := (Bool.and_eq_true_iff.1 hok).1
      have h2 := (Bool.and_eq_true_iff.1 hok).2
      have hc := enqueue_conserves s pcm h1
      simp only [speakerRun, enqConcat, List.filterMap_cons, List.flatten_cons]
      rw [ih (enqueue s pcm) h2]
      rw [hc]
      simp [enqConcat, List.append_assoc]
    | read n =>
      rw [speakerRunOk] at hok
      have hrest := ih (read_bytes s n).2 hok
      have hc := read_bytes_conserves s n
      have hE : enqConcat (SpeakerOp.read n :: rest) = enqConcat rest := by
        simp [enqConcat]
      simp only [speakerRun, List.flatten_cons, hE]
      calc ((read_bytes s n).1 ++ (speakerRun (read_bytes s n).2 rest).2.2.flatten)
            ++ (speakerRun (read_bytes s n).2 rest).1.buf
            ++ (speakerRun (read_bytes s n).2 rest).1.q.flatten
          = (read_bytes s n).1 ++ ((speakerRun (read_bytes s n).2 rest).2.2.flatten
            ++ (speakerRun (read_bytes s n).2 rest).1.buf
            ++ (speakerRun (read_bytes s n).2 rest).1.q.flatten) := by
            simp [List.append_assoc]
        _ = (read_bytes s n).1 ++ ((read_bytes s n).2.buf ++ (read_bytes s n).2.q.flatten
            ++ enqConcat rest) := by rw [hrest]
        _ = ((read_bytes s n).1 ++ (read_bytes s n).2.buf ++ (read_bytes s n).2.q.flatten)
            ++ enqConcat rest := by simp [List.append_assoc]
        _ = s.buf ++ s.q.flatten ++ enqConcat rest := by rw [hc]

/-! ## Audio Distribution Hub (`src/audio/mic_stream.py`, class `MicStream`)

`_listeners` is a Python dict from integer token to callback; dicts keep
insertion order, so we model it as the ordered list of live tokens
together with `_next_listener_id`.  A callback's behaviour is abstracted
by a failure oracle `fails tok chunk` saying whether invoking that
subscriber on that chunk raises. -/

structure HubState where
  listeners : List Nat
  next_listener_id : Nat
deriving DecidableEq, Repr

def hubInit : HubState := ⟨[], 1⟩

/-- `MicStream.subscribe`: allocate the next token and append the
callback; returns the new state and the token handed back. -/
def hub_subscribe (s : HubState) : HubState × Nat :=
  (⟨s.listeners ++ [s.next_listener_id], s.next_listener_id + 1⟩, s.next_listener_id)

/-- `MicStream.unsubscribe`: `dict.pop(token, None)` — removes the token
if present, otherwise a no-op. -/
def hub_unsubscribe (s : HubState) (tok : Nat) : HubState :=
  ⟨s.listeners.filter (fun t => t ≠ tok), s.next_listener_id⟩

/-- The `for cb in listeners` loop of `MicStream._dispatch`: every
snapshot callback is invoked with the chunk; a raising callback is
caught (`except Exception: logger.exception(...)`) and the loop goes on.
Returns the tokens whose callbacks were invoked with the chunk, and the
tokens whose failures were logged. -/
def dispatch_loop (fails : Nat → List Nat → Bool) (chunk : List Nat) :
    List Nat → List Nat × List Nat
  | [] => ([], [])
  | t :: rest =>
    let res := dispatch_loop fails chunk rest
    (t :: res.1, if fails t chunk then t :: res.2 else res.2)

/-- `MicStream._dispatch`: snapshot the subscriber list under the lock,
then deliver outside it. -/
def hub_dispatch (fails : Nat → List Nat → Bool) (s : HubState) (chunk : List Nat) :
    List Nat × List Nat :=
  dispatch_loop fails chunk s.listeners

inductive HubOp where
  | sub
  | unsub (tok : Nat)
  | disp (chunk : List Nat)
deriving DecidableEq, Repr

/-- Run a sequence of hub operations; returns the final state and, for
each dispatch in order, the list of tokens that received the chunk. -/
def hubRun (fails : Nat → List Nat → Bool) : HubState → List HubOp → HubState × List (List Nat)
  | s, [] => (s, [])
  | s, HubOp.sub :: rest => hubRun fails (hub_subscribe s).1 rest
  | s, HubOp.unsub tok :: rest => hubRun fails (hub_unsubscribe s tok) rest
  | s, HubOp.disp chunk :: rest =>
    let res := hubRun fails s rest
    (res.1, (hub_dispatch fails s chunk).1 :: res.2)

lemma dispatch_loop_delivers (fails : Nat → List Nat → Bool) (chunk : List Nat)
    (l : List Nat) : (dispatch_loop fails chunk l).1 = l := by
  induction l with
  | nil => rfl
  | cons t rest ih => simp [dispatch_loop, ih]

lemma dispatch_loop_logs (fails : Nat → List Nat → Bool) (chunk : List Nat)
    (l : List Nat) : (dispatch_loop fails chunk l).2 = l.filter (fun t => fails t chunk) := by
  induction l with
  | nil => rfl
  | cons t rest ih =>
    by_cases h : fails t chunk = true
    · simp [dispatch_loop, ih, h]
    · simp [dispatch_loop, ih, h]

/-- Tokens ever stored in the listener map are strictly below the next
token to be issued. -/
def hubWF (s : HubState) : Prop :=
  ∀ t ∈ s.listeners, t < s.next_listener_id

lemma hubRun_records_indep (fails fails' : Nat → List Nat → Bool) (ops : List HubOp) :
    ∀ s : HubState, (hubRun fails s ops).2 = (hubRun fails' s ops).2 := by
  induction ops with
  | nil => intro s; rfl
  | cons op rest ih =>
    intro s
    cases op with
    | sub => exact ih _
    | unsub tok => exact ih _
    | disp chunk =>
      simp only [hubRun, hub_dispatch, dispatch_loop_delivers]
      rw [ih s]

lemma hubRun_state_indep (fails fails' : Nat → List Nat → Bool) (ops : List HubOp) :
    ∀ s : HubState, (hubRun fails s ops).1 = (hubRun fails' s ops).1 := by
  induction ops with
  | nil => intro s; rfl
  | cons op rest ih =>
    intro s
    cases op with
    | sub => exact ih _
    | unsub tok => exact ih _
    | disp chunk => simp only [hubRun]; rw [ih s]

lemma hubRun_snapshot (fails : Nat → List Nat → Bool) (ops : List HubOp) (chunk : List Nat) :
    ∀ s : HubState,
      (hubRun fails s (ops ++ [HubOp.disp chunk])).2
        = (hubRun fails s ops).2 ++ [(hubRun fails s ops).1.listeners] := by
  induction ops with
  | nil =>
    intro s
    simp [hubRun, hub_dispatch, dispatch_loop_delivers]
  | cons op rest ih =>
    intro s
    cases op with
    | sub => simpa [hubRun] using ih _
    | unsub tok => simpa [hubRun] using ih _
    | disp c => simp [hubRun, ih s]

lemma hubWF_preserved (ops : List HubOp) :
    ∀ s : HubState, hubWF s → hubWF (hubRun fails s ops).1 := by
  induction ops with
  | nil => intro s h; exact h
  | cons op rest ih =>
    intro s h
    cases op with
    | sub =>
      refine ih _ ?_
      intro t ht
      simp only [hub_subscribe, List.mem_append, List.mem_singleton] at ht
      rcases ht with ht | ht
      · exact Nat.lt_succ_of_lt (h t ht)
      · exact ht ▸ Nat.lt_succ_self _
    | unsub tok =>
      refine ih _ ?_
      intro t ht
      exact h t (List.mem_of_mem_filter ht)
    | disp chunk => exact ih s h

lemma hubRun_no_del_after_unsub (fails : Nat → List Nat → Bool) (ops : List HubOp) (t : Nat) :
    ∀ s : HubState, hubWF s → t ∉ s.listeners → t < s.next_listener_id →
      ∀ rec ∈ (hubRun fails s ops).2, t ∉ rec := by
  induction ops with
  | nil => intro s _ _ _ rec hrec; simp [hubRun] at hrec
  | cons op rest ih =>
    intro s hwf hnot hlt rec hrec
    cases op with
    | sub =>
      refine ih _ ?_ ?_ ?_ rec hrec
      · intro u hu
        simp only [hub_subscribe, List.mem_append, List.mem_singleton] at hu
        rcases hu with hu | hu
        · exact Nat.lt_succ_of_lt (hwf u hu)
        · exact hu ▸ Nat.lt_succ_self _
      · intro hmem
        simp only [hub_subscribe, List.mem_append, List.mem_singleton] at hmem
        rcases hmem with hmem | hmem
        · exact hnot hmem
        · exact absurd hmem (Nat.ne_of_lt hlt)
      · exact Nat.lt_succ_of_lt hlt
    | unsub tok =>
      have hrec' : rec ∈ (hubRun fails (hub_unsubscribe s tok) rest).2 := hrec
      refine ih (hub_unsubscribe s tok) ?_ ?_ hlt rec hrec'
      · intro u hu
        exact hwf u (List.mem_of_mem_filter hu)
      · intro hmem
        exact hnot (List.mem_of_mem_filter hmem)
    | disp chunk =>
      simp only [hubRun, hub_dispatch, dispatch_loop_delivers, List.mem_cons] at hrec
      rcases hrec with hrec | hrec
      · exact hrec ▸ hnot
      · exact ih s hwf hnot hlt rec hrec

/-! ## Wake/Exit Confirmation Engine
(`src/wake/wake_detector_vosk.py`, class `WakeDetectorVosk`)

Timestamps (`time.time()` floats) are modelled as exact integers.  The
phrases stored in the constructor are already normalized
(`self.wake_phrase = _normalize_text(wake_phrase)`). -/

inductive Mode where
  | idle
  | in_call
deriving DecidableEq, Repr

/-- `_normalize_text`: `(text or "").replace(" ", "").lower()` —
drop ASCII spaces, then lower-case. -/
def normalize_text (text : String) : String :=
  String.mk ((text.toList.filter (fun c => c ≠ ' ')).map Char.toLower)

/-- Python's `needle in hay` substring test on the character lists. -/
def has_substr (needle : List Char) : List Char → Bool
  | [] => needle.isEmpty
  | c :: rest => needle.isPrefixOf (c :: rest) || has_substr needle rest

structure WakeConfig where
  wake_phrase : String
  exit_phrase : String
  cooldown_sec : ℤ
  require_consecutive_finals : Nat

structure WakeState where
  mode : Mode
  wake_hits : Nat
  exit_hits : Nat
  last_trigger_ts : ℤ
deriving DecidableEq, Repr

def wakeInit : WakeState := ⟨Mode.idle, 0, 0, 0⟩

/-- `WakeDetectorVosk.set_mode`: switch the mode and zero both
confirmation counters. -/
def set_mode (st : WakeState) (m : Mode) : WakeState :=
  { st with mode := m, wake_hits := 0, exit_hits := 0 }

/-- `WakeDetectorVosk._handle_transcript` as a state transformer; `now`
is the `time.time()` reading, and the returned list holds the events
posted to the event sink (`"wake.detected"` / `"exit.detected"`). -/
def handle_transcript (cfg : WakeConfig) (st : WakeState) (text : String) (now : ℤ)
    (final : Bool) : WakeState × List String :=
  let norm := normalize_text text
  if norm = "" then (st, [])
  else if now - st.last_trigger_ts < cfg.cooldown_sec then (st, [])
  else
    match st.mode with
    | Mode.idle =>
      if cfg.wake_phrase ≠ "" ∧ has_substr cfg.wake_phrase.toList norm.toList then
        let hits := st.wake_hits + 1
        if final ∧ cfg.require_consecutive_finals ≤ hits then
          ({ st with wake_hits := 0, last_trigger_ts := now }, ["wake.detected"])
        else
          ({ st with wake_hits := hits }, [])
      else
        ({ st with wake_hits := 0 }, [])
    | Mode.in_call =>
      if cfg.exit_phrase ≠ "" ∧ has_substr cfg.exit_phrase.toList norm.toList then
        let hits := st.exit_hits + 1
        if final ∧ cfg.require_consecutive_finals ≤ hits then
          ({ st with exit_hits := 0, last_trigger_ts := now }, ["exit.detected"])
        else
          ({ st with exit_hits := hits }, [])
      else
        ({ st with exit_hits := 0 }, [])

/-- Feed a sequence of timestamped final transcripts through the
detector, accumulating the emitted events in order. -/
def wakeRun (cfg : WakeConfig) : WakeState → List (String × ℤ) → WakeState × List String
  | st, [] => (st, [])
  | st, (text, now) :: rest =>
    let step := handle_transcript cfg st text now true
    let res := wakeRun cfg step.1 rest
    (res.1, step.2 ++ res.2)

/-- The configuration of the C3 scenario: wake phrase `"hello"`,
threshold 2, cooldown 2 s (the constructor defaults). -/
def helloConfig : WakeConfig :=
  { wake_phrase := normalize_text "hello"
    exit_phrase := normalize_text "goodbye"
    cooldown_sec := 2
    require_consecutive_finals := max 1 2 }

/-! ## JSON values and the realtime protocol
(`src/realtime/realtime_protocol.py`)

Python dicts preserve insertion order, so an object is an ordered list
of key/value pairs. -/

inductive Json where
  | str (s : String)
  | num (n : Int)
  | arr (xs : List Json)
  | obj (fields : List (String × Json))

def jsonLookup : List (String × Json) → String → Option Json
  | [], _ => none
  | (k, v) :: rest, key => if k = key then some v else jsonLookup rest key

def jsonGet : Json → String → Option Json
  | Json.obj fs, key => jsonLookup fs key
  | _, _ => none

/-- `data.get(key, "")` read as a string (non-string values behave like
the default for the string comparisons the client performs). -/
def jsonGetStr (j : Json) (key : String) : String :=
  match jsonGet j key with
  | some (Json.str s) => s
  | _ => ""

/-- `data.get(key)` when only a string result is used
(`isinstance(value, str)` checks in `_extract_audio_b64`). -/
def jsonGetStr? (j : Json) (key : String) : Option String :=
  match jsonGet j key with
  | some (Json.str s) => some s
  | _ => none

def b64_alphabet : List Char :=
  "ABCDEFGHIJKLMNOPQRSTUVWXYZabcdefghijklmnopqrstuvwxyz0123456789+/".toList

def b64_sextet (n : Nat) : Char := b64_alphabet.getD n '?'

/-- Standard base64 of a byte string (`base64.b64encode`). -/
def b64encode : List Nat → List Char
  | [] => []
  | [a] => [b64_sextet (a / 4), b64_sextet (a % 4 * 16), '=', '=']
  | [a, b] => [b64_sextet (a / 4), b64_sextet (a % 4 * 16 + b / 16), b64_sextet (b % 16 * 4), '=']
  | a :: b :: c :: rest =>
    b64_sextet (a / 4) :: b64_sextet (a % 4 * 16 + b / 16)
      :: b64_sextet (b % 16 * 4 + c / 64) :: b64_sextet (c % 64) :: b64encode rest

def char_index : List Char → Char → Option Nat
  | [], _ => none
  | a :: rest, c => if a = c then some 0 else (char_index rest c).map (· + 1)

def b64_index (c : Char) : Option Nat := char_index b64_alphabet c

/-- Base64 decoding (`base64.b64decode`); a malformed input yields
`none`, matching the `except` branch that logs and skips the delta. -/
def b64decode : List Char → Option (List Nat)
  | [] => some []
  | c1 :: c2 :: c3 :: c4 :: rest =>
    match b64_index c1, b64_index c2 with
    | some s1, some s2 =>
      if c3 = '=' ∧ c4 = '=' ∧ rest = [] then some [s1 * 4 + s2 / 16]
      else
        match b64_index c3 with
        | some s3 =>
          if c4 = '=' ∧ rest = [] then some [s1 * 4 + s2 / 16, s2 % 16 * 16 + s3 / 4]
          else
            match b64_index c4 with
            | some s4 =>
              (b64decode rest).map
                (fun tl => (s1 * 4 + s2 / 16) :: (s2 % 16 * 16 + s3 / 4) :: (s3 % 4 * 64 + s4) :: tl)
            | none => none
        | none => none
    | _, _ => none
  | _ => none

/-- `realtime_protocol.build_session_update`. -/
def build_session_update (model voice : String) (sample_rate : Int) (instructions : String) : Json :=
  Json.obj
    [("type", Json.str "session.update"),
     ("session", Json.obj
       [("type", Json.str "realtime"),
        ("model", Json.str model),
        ("output_modalities", Json.arr [Json.str "audio"]),
        ("audio", Json.obj
          [("input", Json.obj
            [("format", Json.obj
              [("type", Json.str "audio/pcm"), ("rate", Json.num sample_rate)]),
             ("turn_detection", Json.obj [("type", Json.str "semantic_vad")])]),
           ("output", Json.obj
            [("format", Json.obj [("type", Json.str "audio/pcm")]),
             ("voice", Json.str voice)])]),
        ("instructions", Json.str instructions)])]

/-- `realtime_protocol.build_input_audio_append`. -/
def build_input_audio_append (pcm : List Nat) : Json :=
  Json.obj
    [("type", Json.str "input_audio_buffer.append"),
     ("audio", Json.str (String.mk (b64encode pcm)))]

/-- `realtime_protocol.build_input_audio_commit`. -/
def build_input_audio_commit : Json :=
  Json.obj [("type", Json.str "input_audio_buffer.commit")]

/-- `realtime_protocol.build_response_create`. -/
def build_response_create : Json :=
  Json.obj
    [("type", Json.str "response.create"),
     ("response", Json.obj [("modalities", Json.arr [Json.str "audio"])])]

/-- The session-configuration message shape as written in the spec,
§6: `{"type":"session.update","session":{"type":"realtime","model":M,
"output_modalities":["audio"],"audio":{"input":{"format":{"type":
"audio/pcm","rate":R},"turn_detection":{"type":"semantic_vad"}},
"output":{"format":{"type":"audio/pcm"},"voice":V}},"instructions":I}}`.
Transcribed from the spec's words, to be compared with the code's
`build_session_update`. -/
def spec_session_update (m : String) (v : String) (r : Int) (i : String) : Json :=
  Json.obj
    [("type", Json.str "session.update"),
     ("session", Json.obj
       [("type", Json.str "realtime"),
        ("model", Json.str m),
        ("output_modalities", Json.arr [Json.str "audio"]),
        ("audio", Json.obj
          [("input", Json.obj
            [("format", Json.obj
              [("type", Json.str "audio/pcm"), ("rate", Json.num r)]),
             ("turn_detection", Json.obj [("type", Json.str "semantic_vad")])]),
           ("output", Json.obj
            [("format", Json.obj [("type", Json.str "audio/pcm")]),
             ("voice", Json.str v)])]),
        ("instructions", Json.str i)])]

/-! ## Realtime Duplex Session Client
(`src/realtime/realtime_client.py`, class `RealtimeClient`)

State: `_stop` / `_connected` are `threading.Event`s; `_audio_q` is the
bounded outbound queue (`maxsize=1024`); `ws_app` records whether
`_ws_app` is non-`None`; `sent` is the ordered list of JSON messages
handed to `ws.send` by `_send_json`; `emitted` the local events posted
through the event sink; `speaker` the attached Playback Buffer. -/

structure RTConfig where
  realtime_model : String
  realtime_voice : String
  sample_rate : Int
  assistant_instructions : String

structure RTState where
  stop_flag : Bool
  connected : Bool
  ws_app : Bool
  audio_q : List (List Nat)
  sent : List Json
  emitted : List String
  speaker : SpeakerState

def rtInit : RTState :=
  { stop_flag := false, connected := false, ws_app := true,
    audio_q := [], sent := [], emitted := [], speaker := speakerInit }

/-- `RealtimeClient._send_json`: a no-op when `_ws_app` is gone;
otherwise the payload goes out on the socket (a raising `ws.send` is
logged and swallowed). -/
def rt_send_json (s : RTState) (payload : Json) : RTState :=
  if s.ws_app then { s with sent := s.sent ++ [payload] } else s

/-- `RealtimeClient.send_audio`: nothing after `close()`; a full queue
drops the newest chunk with a log warning; otherwise enqueue. -/
def rt_send_audio (s : RTState) (pcm : List Nat) : RTState :=
  if s.stop_flag then s
  else if 1024 ≤ s.audio_q.length then s
  else { s with audio_q := s.audio_q ++ [pcm] }

/-- One iteration of `RealtimeClient._run_sender`: dequeue a chunk (or
time out on an empty queue); a dequeued chunk is transmitted only when
`_connected` is set, and is discarded otherwise. -/
def rt_sender_step (s : RTState) : RTState :=
  if s.stop_flag then s
  else
    match s.audio_q with
    | [] => s
    | pcm :: rest =>
      let s' := { s with audio_q := rest }
      if s'.connected then rt_send_json s' (build_input_audio_append pcm) else s'

def str_field (fs : List (String × Json)) (key : String) : Option String :=
  match jsonLookup fs key with
  | some (Json.str v) => some v
  | _ => none

/-- `RealtimeClient._extract_audio_b64`.  A non-string `delta` on the
two known delta types is truthy in Python but then fails base64
decoding and is logged and skipped; it is modelled as `none`, which has
the same net effect on the state. -/
def extract_audio_b64 (data : Json) : Option String :=
  let event_type := jsonGetStr data "type"
  if event_type = "response.audio.delta" ∨ event_type = "response.output_audio.delta" then
    jsonGetStr? data "delta"
  else
    let from_delta :=
      match jsonGet data "delta" with
      | some (Json.obj fs) =>
        match str_field fs "audio" with
        | some v => some v
        | none => str_field fs "audio_base64"
      | _ => none
    match from_delta with
    | some v => some v
    | none =>
      match jsonGetStr? data "audio" with
      | some v => some v
      | none => jsonGetStr? data "audio_base64"

/-- `RealtimeClient._handle_message`. -/
def rt_handle_message (cfg : RTConfig) (s : RTState) (data : Json) : RTState :=
  let event_type := jsonGetStr data "type"
  if event_type = "session.created" then
    let s1 := { s with connected := true }
    let s2 := rt_send_json s1
      (build_session_update cfg.realtime_model cfg.realtime_voice cfg.sample_rate
        cfg.assistant_instructions)
    { s2 with emitted := s2.emitted ++ ["realtime.ready"] }
  else if event_type = "input_audio_buffer.speech_started" then
    { s with speaker := clear s.speaker }
  else if event_type = "input_audio_buffer.speech_stopped" then
    rt_send_json (rt_send_json s build_input_audio_commit) build_response_create
  else
    let s1 :=
      match extract_audio_b64 data with
      | some b64 =>
        if b64 = "" then s
        else
          match b64decode b64.toList with
          | some bytes => { s with speaker := enqueue s.speaker bytes }
          | none => s
      | none => s
    if event_type.startsWith "response." then
      { s1 with emitted := s1.emitted ++ ["realtime.response_event"] }
    else s1

/-- `RealtimeClient.close`: sets `_stop`, clears `_connected`, closes
the socket and joins the loops, then drops `_ws_app`. -/
def rt_close (s : RTState) : RTState :=
  { s with stop_flag := true, connected := false, ws_app := false }

/-- The websocket `on_close` handler: clears `_connected` and posts
`realtime.closed`. -/
def rt_on_close (s : RTState) : RTState :=
  { s with connected := false, emitted := s.emitted ++ ["realtime.closed"] }

/-- The websocket `on_error` handler: posts `realtime.error`. -/
def rt_on_error (s : RTState) : RTState :=
  { s with emitted := s.emitted ++ ["realtime.error"] }

/-- Atomic steps of the client's three threads, serialized into one
interleaving. -/
inductive RTOp where
  | send_audio_op (pcm : List Nat)
  | sender_step_op
  | on_message_op (data : Json)
  | on_close_op
  | on_error_op
  | close_op

def rtStep (cfg : RTConfig) (s : RTState) : RTOp → RTState
  | RTOp.send_audio_op pcm => rt_send_audio s pcm
  | RTOp.sender_step_op => rt_sender_step s
  | RTOp.on_message_op data => rt_handle_message cfg s data
  | RTOp.on_close_op => rt_on_close s
  | RTOp.on_error_op => rt_on_error s
  | RTOp.close_op => rt_close s

def rtRun (cfg : RTConfig) : RTState → List RTOp → RTState
  | s, [] => s
  | s, op :: rest => rtRun cfg (rtStep cfg s op) rest

/-- Whether an inbound message is the server's `session.created`. -/
def is_session_created : RTOp → Bool
  | RTOp.on_message_op data => jsonGetStr data "type" == "session.created"
  | _ => false

/-- Whether a JSON message is an outbound audio append. -/
def is_audio_append (m : Json) : Bool :=
  jsonGetStr m "type" == "input_audio_buffer.append"

/-! ## Session State Machine (`src/state_machine.py`,
class `HelloGptStateMachine`)

The consumer thread mutates `state`, `_call_stopping`, `_realtime`,
`_mic_forward_sub`, the detector's mode and the global stop flag; the
side effects it performs on collaborators are recorded as an ordered
action trace.  `realtime_active` stands for `_realtime is not None` and
`mic_forward_sub` for `_mic_forward_sub is not None`. -/

inductive AppState where
  | IDLE_LISTENING
  | CONNECTING
  | IN_CALL
  | STOPPING
  | SHUTDOWN
deriving DecidableEq, Repr

structure SMState where
  state : AppState
  call_stopping : Bool
  realtime_active : Bool
  mic_forward_sub : Bool
  mode : Mode
  stop_flag : Bool
deriving DecidableEq, Repr

/-- Observable side effects of the consumer thread, in program order. -/
inductive SMAction where
  | set_state (st : AppState)
  | start_realtime
  | close_realtime
  | subscribe_mic_forward
  | unsubscribe_mic_forward
  | set_mode_act (m : Mode)
  | clear_speaker
  | post_event (e : String)
deriving DecidableEq, Repr

/-- How far `_start_call`'s `try` block gets before an exception:
`ok` — everything succeeds; `ctor_raises` — the `RealtimeClient(...)`
constructor raises, so `_realtime` stays `None`; `start_raises` —
`_realtime.start()` (or the subscribe after it) raises after
`_realtime` was assigned.  Either failure posts `realtime.error`. -/
inductive StartOutcome where
  | ok
  | ctor_raises
  | start_raises
deriving DecidableEq, Repr

/-- `HelloGptStateMachine._start_call`. -/
def start_call (o : StartOutcome) (s : SMState) : SMState × List SMAction :=
  let s1 : SMState := { s with call_stopping := false, state := AppState.CONNECTING }
  match o with
  | StartOutcome.ok =>
    ({ s1 with realtime_active := true, mic_forward_sub := true },
     [SMAction.set_state AppState.CONNECTING, SMAction.start_realtime,
      SMAction.subscribe_mic_forward])
  | StartOutcome.ctor_raises =>
    (s1, [SMAction.set_state AppState.CONNECTING, SMAction.post_event "realtime.error"])
  | StartOutcome.start_raises =>
    ({ s1 with realtime_active := true },
     [SMAction.set_state AppState.CONNECTING, SMAction.start_realtime,
      SMAction.post_event "realtime.error"])

/-- `HelloGptStateMachine._stop_call`. -/
def stop_call (s : SMState) (reason : String) : SMState × List SMAction :=
  if s.call_stopping then (s, [])
  else if ¬ (s.state = AppState.CONNECTING ∨ s.state = AppState.IN_CALL
      ∨ s.state = AppState.STOPPING) ∧ reason ≠ "shutdown" then (s, [])
  else
    let s1 : SMState := { s with call_stopping := true }
    let p1 : SMState × List SMAction :=
      if reason ≠ "shutdown" then
        ({ s1 with state := AppState.STOPPING }, [SMAction.set_state AppState.STOPPING])
      else (s1, [])
    let s2 := { p1.1 with mode := Mode.idle }
    let a2 := p1.2 ++ [SMAction.set_mode_act Mode.idle]
    let p3 : SMState × List SMAction :=
      if s2.mic_forward_sub then
        ({ s2 with mic_forward_sub := false }, a2 ++ [SMAction.unsubscribe_mic_forward])
      else (s2, a2)
    let p4 : SMState × List SMAction :=
      if p3.1.realtime_active then
        ({ p3.1 with realtime_active := false }, p3.2 ++ [SMAction.close_realtime])
      else (p3.1, p3.2)
    let a5 := p4.2 ++ [SMAction.clear_speaker]
    if ¬ p4.1.stop_flag ∧ reason ≠ "shutdown" then
      ({ p4.1 with state := AppState.IDLE_LISTENING },
       a5 ++ [SMAction.set_state AppState.IDLE_LISTENING])
    else (p4.1, a5)

/-- `HelloGptStateMachine._handle_event` (event payloads play no role
in the dispatch, so events are just their type tags). -/
def handle_event (o : StartOutcome) (s : SMState) (ev : String) : SMState × List SMAction :=
  if ev = "wake.detected" ∧ s.state = AppState.IDLE_LISTENING then
    start_call o s
  else if ev = "realtime.ready" ∧ s.state = AppState.CONNECTING then
    ({ s with call_stopping := false, mode := Mode.in_call, state := AppState.IN_CALL },
     [SMAction.set_mode_act Mode.in_call, SMAction.set_state AppState.IN_CALL])
  else if ev = "exit.detected" ∧ s.state = AppState.IN_CALL then
    stop_call s "exit phrase"
  else if (ev = "realtime.closed" ∨ ev = "realtime.error")
      ∧ (s.state = AppState.CONNECTING ∨ s.state = AppState.IN_CALL) then
    stop_call s ev
  else if ev = "app.stop" then
    ({ s with stop_flag := true }, [])
  else (s, [])

/-- Consume a sequence of events in arrival order, accumulating the
action trace. -/
def smRun (o : StartOutcome) : SMState → List String → SMState × List SMAction
  | s, [] => (s, [])
  | s, ev :: rest =>
    let step := handle_event o s ev
    let res := smRun o step.1 rest
    (res.1, step.2 ++ res.2)

/-- The state established by `_startup` (the constructor starts in
`IDLE_LISTENING` with no call in flight; `_startup` sets the detector
mode to idle and re-announces `IDLE_LISTENING`). -/
def smStartup : SMState :=
  { state := AppState.IDLE_LISTENING, call_stopping := false, realtime_active := false,
    mic_forward_sub := false, mode := Mode.idle, stop_flag := false }

/-- The side effects `_startup` performs, in order. -/
def startupActions : List SMAction :=
  [SMAction.set_mode_act Mode.idle, SMAction.set_state AppState.IDLE_LISTENING]

/-- The `SetState` transitions recorded in an action trace, in order. -/
def statesOf (acts : List SMAction) : List AppState :=
  acts.filterMap (fun a => match a with
    | SMAction.set_state st => some st
    | _ => none)

/-! Preservation lemmas for the realtime client: before the server's
`session.created` has been handled, `_connected` stays down and no
audio append ever reaches the socket. -/

lemma rt_send_json_connected (s : RTState) (p : Json) :
    (rt_send_json s p).connected = s.connected := by
  unfold rt_send_json
  split <;> rfl

lemma rt_send_json_sent (s : RTState) (p : Json) (m : Json)
    (hm : m ∈ (rt_send_json s p).sent) : m ∈ s.sent ∨ m = p := by
  unfold rt_send_json at hm
  split at hm
  · simpa using hm
  · exact Or.inl hm

lemma rt_send_audio_only_queue (s : RTState) (pcm : List Nat) :
    (rt_send_audio s pcm).sent = s.sent ∧ (rt_send_audio s pcm).connected = s.connected
      ∧ (rt_send_audio s pcm).emitted = s.emitted
      ∧ (rt_send_audio s pcm).speaker = s.speaker
      ∧ (rt_send_audio s pcm).stop_flag = s.stop_flag
      ∧ (rt_send_audio s pcm).ws_app = s.ws_app := by
  unfold rt_send_audio
  split
  · simp
  · split <;> simp

lemma rt_send_audio_bound (s : RTState) (pcm : List Nat)
    (h : s.audio_q.length ≤ 1024) : (rt_send_audio s pcm).audio_q.length ≤ 1024 := by
  unfold rt_send_audio
  split
  · exact h
  · split
    · exact h
    · simp only [List.length_append, List.length_singleton]
      omega

lemma rt_sender_step_not_connected (s : RTState) (h : s.connected = false) :
    (rt_sender_step s).sent = s.sent ∧ (rt_sender_step s).connected = false := by
  unfold rt_sender_step
  split
  · exact ⟨rfl, h⟩
  · split
    · exact ⟨rfl, h⟩
    · rw [if_neg]
      · exact ⟨rfl, h⟩
      · simp [h]

lemma rt_handle_message_no_created (cfg : RTConfig) (s : RTState) (data : Json)
    (h : jsonGetStr data "type" ≠ "session.created") :
    (rt_handle_message cfg s data).connected = s.connected
      ∧ ∀ m ∈ (rt_handle_message cfg s data).sent,
          m ∈ s.sent ∨ m = build_input_audio_commit ∨ m = build_response_create := by
  unfold rt_handle_message
  rw [if_neg h]
  split
  · exact ⟨rfl, fun m hm => Or.inl hm⟩
  · split
    · refine ⟨by rw [rt_send_json_connected, rt_send_json_connected], ?_⟩
      intro m hm
      rcases rt_send_json_sent _ _ _ hm with hm1 | hm1
      · rcases rt_send_json_sent _ _ _ hm1 with hm2 | hm2
        · exact Or.inl hm2
        · exact Or.inr (Or.inl hm2)
      · exact Or.inr (Or.inr hm1)
    · cases hx : extract_audio_b64 data with
      | none =>
        simp only [hx]
        split <;> exact ⟨rfl, fun m hm => Or.inl hm⟩
      | some b64 =>
        simp only [hx]
        by_cases hb : b64 = ""
        · simp only [if_pos hb]
          split <;> exact ⟨rfl, fun m hm => Or.inl hm⟩
        · simp only [if_neg hb]
          cases hd : b64decode b64.toList with
          | none =>
            simp only [hd]
            split <;> exact ⟨rfl, fun m hm => Or.inl hm⟩
          | some bytes =>
            simp only [hd]
            split <;> exact ⟨rfl, fun m hm => Or.inl hm⟩

/-- Along any interleaving whose inbound messages never include
`session.created`, the client stays unnegotiated and transmits no
audio append. -/
lemma rtRun_no_append (cfg : RTConfig) (ops : List RTOp) :
    ∀ s : RTState, s.connected = false →
      (∀ m ∈ s.sent, is_audio_append m = false) →
      (∀ op ∈ ops, is_session_created op = false) →
      (rtRun cfg s ops).connected = false
        ∧ ∀ m ∈ (rtRun cfg s ops).sent, is_audio_append m = false := by
  induction ops with
  | nil => intro s h1 h2 _; exact ⟨h1, h2⟩
  | cons op rest ih =>
    intro s h1 h2 hops
    have hop : is_session_created op = false := hops op (List.mem_cons_self _ _)
    have hrest : ∀ op' ∈ rest, is_session_created op' = false :=
      fun op' hmem => hops op' (List.mem_cons_of_mem _ hmem)
    cases op with
    | send_audio_op pcm =>
      have hq := rt_send_audio_only_queue s pcm
      exact ih (rt_send_audio s pcm) (hq.2.1.trans h1)
        (fun m hm => h2 m (hq.1 ▸ hm)) hrest
    | sender_step_op =>
      have hs := rt_sender_step_not_connected s h1
      exact ih (rt_sender_step s) hs.2 (fun m hm => h2 m (hs.1 ▸ hm)) hrest
    | on_message_op data =>
      have hne : jsonGetStr data "type" ≠ "session.created" := by
        intro heq
        simp [is_session_created, heq] at hop
      have hm := rt_handle_message_no_created cfg s data hne
      refine ih _ (hm.1.trans h1) ?_ hrest
      intro m hmem
      rcases hm.2 m hmem with hc | hc | hc
      · exact h2 m hc
      · rw [hc]; rfl
      · rw [hc]; rfl
    | on_close_op => exact ih _ rfl h2 hrest
    | on_error_op => exact ih _ h1 h2 hrest
    | close_op => exact ih _ rfl h2 hrest

/-! The in-flight guard of `_stop_call`. -/

lemma stop_call_noop (s : SMState) (r : String) (h : s.call_stopping = true) :
    stop_call s r = (s, []) := by
  unfold stop_call
  rw [if_pos h]

lemma stop_call_flag (s : SMState) (r : String)
    (h : s.state = AppState.CONNECTING ∨ s.state = AppState.IN_CALL
      ∨ s.state = AppState.STOPPING ∨ r = "shutdown") :
    (stop_call s r).1.call_stopping = true := by
  by_cases hc : s.call_stopping = true
  · rw [stop_call_noop s r hc]
    exact hc
  · unfold stop_call
    rw [if_neg hc, if_neg]
    · dsimp only
      split
      · split
        · split
          · split <;> rfl
          · split <;> rfl
        · split
          · split <;> rfl
          · split <;> rfl
      · split
        · split
          · split <;> rfl
          · split <;> rfl
        · split
          · split <;> rfl
          · split <;> rfl
    · rcases h with h | h | h | h
      · intro hg; exact hg.1 (Or.inl h)
      · intro hg; exact hg.1 (Or.inr (Or.inl h))
      · intro hg; exact hg.1 (Or.inr (Or.inr h))
      · intro hg; exact hg.2 h

/-- A transcript either produces no event, or exactly one trigger event
whose counter has been zeroed. -/
lemma handle_transcript_out (cfg : WakeConfig) (st : WakeState) (text : String) (now : ℤ)
    (final : Bool) :
    (handle_transcript cfg st text now final).2 = []
    ∨ ((handle_transcript cfg st text now final).2 = ["wake.detected"]
        ∧ (handle_transcript cfg st text now final).1.wake_hits = 0)
    ∨ ((handle_transcript cfg st text now final).2 = ["exit.detected"]
        ∧ (handle_transcript cfg st text now final).1.exit_hits = 0) := by
  unfold handle_transcript
  by_cases h1 : normalize_text text = ""
  · simp [h1]
  · by_cases h2 : now - st.last_trigger_ts < cfg.cooldown_sec
    · simp [h1, h2]
    · cases hmode : st.mode
      · simp [h1, h2, hmode]
        split
        · split <;> simp
        · simp
      · simp [h1, h2, hmode]
        split
        · split <;> simp
        · simp

/-! ## The claims -/

/-- Claim C1: starting in `IDLE_LISTENING`, consuming `wake.detected`,
then `realtime.ready`, then `exit.detected` drives the session state
through exactly `IDLE_LISTENING → CONNECTING → IN_CALL → STOPPING →
IDLE_LISTENING`, with exactly one realtime session client started and
exactly one closed over the whole sequence. -/
theorem claim_c1_session_lifecycle :
    smStartup.state = AppState.IDLE_LISTENING
    ∧ statesOf (smRun StartOutcome.ok smStartup
        ["wake.detected", "realtime.ready", "exit.detected"]).2
      = [AppState.CONNECTING, AppState.IN_CALL, AppState.STOPPING, AppState.IDLE_LISTENING]
    ∧ ((smRun StartOutcome.ok smStartup
        ["wake.detected", "realtime.ready", "exit.detected"]).2).count
        SMAction.start_realtime = 1
    ∧ ((smRun StartOutcome.ok smStartup
        ["wake.detected", "realtime.ready", "exit.detected"]).2).count
        SMAction.close_realtime = 1 :=
  ⟨rfl, by decide, by decide, by decide⟩

/-- Claim C2: a playback-callback read of `n` bytes always returns
exactly `n` bytes, the shortfall beyond the available data being filled
with zero bytes, and a `readFrame` performed immediately after
`clear()` returns all zero bytes, whatever was enqueued before. -/
theorem claim_c2_read_frame_exact :
    (∀ (s : SpeakerState) (n : Nat), (read_frame s n).1.length = n)
    ∧ (∀ (s : SpeakerState) (n : Nat),
        (read_frame s n).1
          = (read_bytes s n).1 ++ List.replicate (n - (read_bytes s n).1.length) 0)
    ∧ (∀ (s : SpeakerState) (n : Nat), (read_frame (clear s) n).1 = List.replicate n 0) :=
  ⟨read_frame_length, fun _ _ => rfl, read_frame_after_clear⟩

/-- Claim C3: with mode idle, wake phrase "hello", threshold 2 and
cooldown 2 s, two final transcripts "say hello now" outside the
cooldown window emit exactly one `wake.detected`, after the second
one; a single non-matching final transcript between the two matches
resets the hit counter to zero and no event is emitted. -/
theorem claim_c3_wake_scenario :
    (wakeRun helloConfig wakeInit [("say hello now", 10), ("say hello now", 11)]).2
      = ["wake.detected"]
    ∧ (wakeRun helloConfig wakeInit [("say hello now", 10)]).2 = []
    ∧ (wakeRun helloConfig wakeInit
        [("say hello now", 10), ("that does not match", 11)]).1.wake_hits = 0
    ∧ (wakeRun helloConfig wakeInit
        [("say hello now", 10), ("that does not match", 11), ("say hello now", 12)]).2
      = [] :=
  ⟨by decide, by decide, by decide, by decide⟩

/-- Claim C4: running call-teardown twice in a row has the same
observable effect as running it once — whatever the reasons, the second
invocation performs no state transition, no realtime close, no
unsubscribe and no playback clear (its action trace is empty and the
state is untouched). -/
theorem claim_c4_teardown_idempotent (s : SMState) (r1 r2 : String)
    (h : s.state = AppState.CONNECTING ∨ s.state = AppState.IN_CALL
      ∨ s.state = AppState.STOPPING ∨ r1 = "shutdown") :
    stop_call (stop_call s r1).1 r2 = ((stop_call s r1).1, []) :=
  stop_call_noop _ r2 (stop_call_flag s r1 h)

/-- Witness for C4: an in-call teardown for `realtime.error` followed
by a second teardown attempt. -/
theorem claim_c4_witness :
    stop_call (stop_call ⟨AppState.IN_CALL, false, true, true, Mode.in_call, false⟩
        "realtime.error").1 "exit phrase"
      = ((stop_call ⟨AppState.IN_CALL, false, true, true, Mode.in_call, false⟩
        "realtime.error").1, []) :=
  claim_c4_teardown_idempotent _ "realtime.error" "exit phrase" (Or.inr (Or.inl rfl))

/-- Claim C5 counterexample: after one matching final transcript the
wake counter is 1; a whitespace-only final transcript (" ") then
leaves it at 1, not 0, because `_handle_transcript` returns before the
reset when the normalized text is empty — contradicting the claim that
every non-matching final transcript (including a whitespace-only one)
leaves the counter at zero. -/
theorem claim_c5_counterexample :
    (wakeRun helloConfig wakeInit [("say hello now", 10), (" ", 11)]).1.wake_hits = 1
    ∧ (wakeRun helloConfig wakeInit [("say hello now", 10), (" ", 11)]).1.wake_hits ≠ 0 :=
  ⟨by decide, by decide⟩

/-- Claim C5 (amended): a final transcript that is non-empty after
normalization, arrives outside the cooldown window and does not match
the current mode's phrase resets that mode's hit counter to zero; mode
changes zero both counters, and a successful trigger zeroes the counter
that fired; a transcript that normalizes to empty, or that arrives
inside the cooldown window, leaves the whole state unchanged instead. -/
theorem claim_c5_counter_reset (cfg : WakeConfig) (st : WakeState) (text : String)
    (now : ℤ) (final : Bool) :
    ((set_mode st Mode.idle).wake_hits = 0 ∧ (set_mode st Mode.idle).exit_hits = 0
      ∧ (set_mode st Mode.in_call).wake_hits = 0 ∧ (set_mode st Mode.in_call).exit_hits = 0)
    ∧ (normalize_text text ≠ "" → ¬ now - st.last_trigger_ts < cfg.cooldown_sec →
        st.mode = Mode.idle →
        ¬ (cfg.wake_phrase ≠ ""
            ∧ has_substr cfg.wake_phrase.toList (normalize_text text).toList = true) →
        (handle_transcript cfg st text now final).1.wake_hits = 0)
    ∧ (normalize_text text ≠ "" → ¬ now - st.last_trigger_ts < cfg.cooldown_sec →
        st.mode = Mode.in_call →
        ¬ (cfg.exit_phrase ≠ ""
            ∧ has_substr cfg.exit_phrase.toList (normalize_text text).toList = true) →
        (handle_transcript cfg st text now final).1.exit_hits = 0)
    ∧ ((handle_transcript cfg st text now final).2 = ["wake.detected"] →
        (handle_transcript cfg st text now final).1.wake_hits = 0)
    ∧ ((handle_transcript cfg st text now final).2 = ["exit.detected"] →
        (handle_transcript cfg st text now final).1.exit_hits = 0)
    ∧ (normalize_text text = "" → handle_transcript cfg st text now final = (st, []))
    ∧ (normalize_text text ≠ "" → now - st.last_trigger_ts < cfg.cooldown_sec →
        handle_transcript cfg st text now final = (st, [])) := by
  refine ⟨⟨rfl, rfl, rfl, rfl⟩, ?_, ?_, ?_, ?_, ?_, ?_⟩
  · intro h1 h2 h3 h4
    unfold handle_transcript
    simp only [if_neg h1, if_neg h2, h3]
    rw [if_neg h4]
  · intro h1 h2 h3 h4
    unfold handle_transcript
    simp only [if_neg h1, if_neg h2, h3]
    rw [if_neg h4]
  · intro hev
    rcases handle_transcript_out cfg st text now final with h | ⟨_, h⟩ | ⟨he, _⟩
    · rw [hev] at h; exact absurd h (by simp)
    · exact h
    · rw [hev] at he; exact absurd he (by simp)
  · intro hev
    rcases handle_transcript_out cfg st text now final with h | ⟨he, _⟩ | ⟨_, h⟩
    · rw [hev] at h; exact absurd h (by simp)
    · rw [hev] at he; exact absurd he (by simp)
    · exact h
  · intro h1
    unfold handle_transcript
    simp [h1]
  · intro h1 h2
    unfold handle_transcript
    simp [h1, h2]

/-- Witness for the amended C5: each clause instantiated at a concrete
detector state and transcript. -/
theorem claim_c5_witness :
    (set_mode ⟨Mode.idle, 3, 4, 0⟩ Mode.in_call).wake_hits = 0
    ∧ (handle_transcript helloConfig ⟨Mode.idle, 1, 0, 0⟩ "xyz" 10 true).1.wake_hits = 0
    ∧ (handle_transcript helloConfig ⟨Mode.in_call, 0, 1, 0⟩ "xyz" 10 true).1.exit_hits = 0
    ∧ (handle_transcript helloConfig ⟨Mode.idle, 1, 0, 0⟩ "say hello now" 10 true).1.wake_hits = 0
    ∧ (handle_transcript helloConfig ⟨Mode.in_call, 0, 1, 0⟩ "goodbye" 10 true).1.exit_hits = 0
    ∧ handle_transcript helloConfig ⟨Mode.idle, 1, 0, 0⟩ " " 10 true = (⟨Mode.idle, 1, 0, 0⟩, [])
    ∧ handle_transcript helloConfig ⟨Mode.idle, 1, 0, 9⟩ "xyz" 10 true = (⟨Mode.idle, 1, 0, 9⟩, []) :=
  ⟨(claim_c5_counter_reset helloConfig ⟨Mode.idle, 3, 4, 0⟩ "x" 0 true).1.2.2.1,
   (claim_c5_counter_reset helloConfig ⟨Mode.idle, 1, 0, 0⟩ "xyz" 10 true).2.1
     (by decide) (by decide) rfl (by decide),
   (claim_c5_counter_reset helloConfig ⟨Mode.in_call, 0, 1, 0⟩ "xyz" 10 true).2.2.1
     (by decide) (by decide) rfl (by decide),
   (claim_c5_counter_reset helloConfig ⟨Mode.idle, 1, 0, 0⟩ "say hello now" 10 true).2.2.2.1
     (by decide),
   (claim_c5_counter_reset helloConfig ⟨Mode.in_call, 0, 1, 0⟩ "goodbye" 10 true).2.2.2.2.1
     (by decide),
   (claim_c5_counter_reset helloConfig ⟨Mode.idle, 1, 0, 0⟩ " " 10 true).2.2.2.2.2.1
     (by decide),
   (claim_c5_counter_reset helloConfig ⟨Mode.idle, 1, 0, 9⟩ "xyz" 10 true).2.2.2.2.2.2
     (by decide) (by decide)⟩

/-- Claim C6: every dispatch delivers the chunk to exactly the
subscribers in its snapshot, in order, regardless of which callbacks
raise (raising callbacks are logged and the loop continues); the
delivery records of a whole run do not depend on the failure pattern;
and once a token's unsubscribe has returned, no later dispatch ever
delivers to it. -/
theorem claim_c6_hub_delivery (fails : Nat → List Nat → Bool) (chunk : List Nat)
    (l : List Nat) (ops ops1 ops2 : List HubOp) (t : Nat)
    (ht : t < (hubRun fails hubInit ops1).1.next_listener_id) :
    (dispatch_loop fails chunk l).1 = l
    ∧ (dispatch_loop fails chunk l).2 = l.filter (fun tok => fails tok chunk)
    ∧ (hubRun fails hubInit (ops ++ [HubOp.disp chunk])).2
        = (hubRun fails hubInit ops).2 ++ [(hubRun fails hubInit ops).1.listeners]
    ∧ (∀ fails', (hubRun fails hubInit ops).2 = (hubRun fails' hubInit ops).2)
    ∧ (∀ rec ∈ (hubRun fails (hub_unsubscribe (hubRun fails hubInit ops1).1 t) ops2).2,
        t ∉ rec) := by
  have hwf0 : hubWF hubInit := by intro u hu; simp [hubInit] at hu
  have hwf1 : hubWF (hubRun fails hubInit ops1).1 := hubWF_preserved ops1 hubInit hwf0
  refine ⟨dispatch_loop_delivers fails chunk l, dispatch_loop_logs fails chunk l,
    hubRun_snapshot fails ops chunk hubInit,
    fun fails' => hubRun_records_indep fails fails' ops hubInit, ?_⟩
  refine hubRun_no_del_after_unsub fails ops2 t _ ?_ ?_ ?_
  · intro u hu
    exact hwf1 u (List.mem_of_mem_filter hu)
  · intro hmem
    rcases List.mem_filter.1 hmem with ⟨_, hp⟩
    simp at hp
  · exact ht

/-- Witness for C6: one subscriber (token 1), unsubscribed, then a
dispatch; with an always-failing callback oracle. -/
theorem claim_c6_witness :
    (dispatch_loop (fun _ _ => true) [9] [1, 2]).1 = [1, 2]
    ∧ (∀ rec ∈ (hubRun (fun _ _ => true)
        (hub_unsubscribe (hubRun (fun _ _ => true) hubInit [HubOp.sub]).1 1)
        [HubOp.disp [9]]).2, 1 ∉ rec) :=
  ⟨(claim_c6_hub_delivery (fun _ _ => true) [9] [1, 2] [] [HubOp.sub] [HubOp.disp [9]] 1
      (by decide)).1,
   (claim_c6_hub_delivery (fun _ _ => true) [9] [1, 2] [] [HubOp.sub] [HubOp.disp [9]] 1
      (by decide)).2.2.2.2⟩

/-- Claim C7: the realtime client never transmits an audio chunk before
the server's `session.created` has been handled — along any interleaving
free of `session.created`, nothing sent is an audio append; `sendAudio`
only touches the bounded queue (dropping the newest chunk when 1024 are
pending); and a sender-loop iteration transmits nothing while
`_connected` is down. -/
theorem claim_c7_no_audio_before_ready (cfg : RTConfig) (ops : List RTOp)
    (h : ∀ op ∈ ops, is_session_created op = false) :
    (∀ m ∈ (rtRun cfg rtInit ops).sent, is_audio_append m = false)
    ∧ (∀ (s : RTState) (pcm : List Nat),
        (rt_send_audio s pcm).sent = s.sent
        ∧ (rt_send_audio s pcm).connected = s.connected
        ∧ (rt_send_audio s pcm).emitted = s.emitted
        ∧ (rt_send_audio s pcm).speaker = s.speaker
        ∧ (s.audio_q.length ≤ 1024 → (rt_send_audio s pcm).audio_q.length ≤ 1024))
    ∧ (∀ s : RTState, s.connected = false → (rt_sender_step s).sent = s.sent) := by
  refine ⟨(rtRun_no_append cfg ops rtInit rfl ?_ h).2, ?_, ?_⟩
  · intro m hm
    simp [rtInit] at hm
  · intro s pcm
    have hq := rt_send_audio_only_queue s pcm
    exact ⟨hq.1, hq.2.1, hq.2.2.1, hq.2.2.2.1, fun hb => rt_send_audio_bound s pcm hb⟩
  · intro s hc
    exact (rt_sender_step_not_connected s hc).1

/-- Witness for C7: queued audio, a sender iteration, an unrelated
server event and a socket close — no append is transmitted. -/
theorem claim_c7_witness :
    (∀ m ∈ (rtRun ⟨"gpt-realtime", "marin", 24000, "hi"⟩ rtInit
        [RTOp.send_audio_op [1, 2], RTOp.sender_step_op,
         RTOp.on_message_op (Json.obj [("type", Json.str "response.created")]),
         RTOp.on_close_op]).sent, is_audio_append m = false)
    ∧ (rt_send_audio rtInit [7]).sent = rtInit.sent :=
  ⟨(claim_c7_no_audio_before_ready ⟨"gpt-realtime", "marin", 24000, "hi"⟩
      [RTOp.send_audio_op [1, 2], RTOp.sender_step_op,
       RTOp.on_message_op (Json.obj [("type", Json.str "response.created")]),
       RTOp.on_close_op] (by decide)).1,
   (claim_c7_no_audio_before_ready ⟨"gpt-realtime", "marin", 24000, "hi"⟩ []
      (by decide)).2.1 rtInit [7] |>.1⟩

/-- Claim C8: handling the server's `session.created` transmits exactly
one session-configuration message — whose JSON equals the shape given in
the spec, for the configured model, voice, sample rate and
instructions — and then emits a local `realtime.ready` event. -/
theorem claim_c8_session_created_config (cfg : RTConfig) (s : RTState)
    (h : s.ws_app = true) :
    rt_handle_message cfg s (Json.obj [("type", Json.str "session.created")])
      = { s with connected := true,
                 sent := s.sent ++ [build_session_update cfg.realtime_model
                   cfg.realtime_voice cfg.sample_rate cfg.assistant_instructions],
                 emitted := s.emitted ++ ["realtime.ready"] }
    ∧ (∀ (m v : String) (r : Int) (i : String),
        build_session_update m v r i = spec_session_update m v r i) := by
  refine ⟨?_, fun m v r i => rfl⟩
  simp [rt_handle_message, jsonGetStr, jsonGet, jsonLookup, rt_send_json, h]

/-- Witness for C8: a fresh client handling `session.created`. -/
theorem claim_c8_witness :
    rt_handle_message ⟨"gpt-realtime", "marin", 24000, "hi"⟩ rtInit
        (Json.obj [("type", Json.str "session.created")])
      = { rtInit with connected := true,
                      sent := rtInit.sent ++ [build_session_update "gpt-realtime" "marin"
                        24000 "hi"],
                      emitted := rtInit.emitted ++ ["realtime.ready"] } :=
  (claim_c8_session_created_config ⟨"gpt-realtime", "marin", 24000, "hi"⟩ rtInit rfl).1

/-- Claim C9: a `realtime.error` consumed while in `CONNECTING` returns
the machine to `IDLE_LISTENING`, and at no point of the run — from
startup through the teardown, whatever the start outcome — is the
detector's mode set to `in_call`; teardown sets it to `idle`. -/
theorem claim_c9_error_in_connecting (o : StartOutcome) :
    smStartup.mode = Mode.idle
    ∧ (smRun o smStartup ["wake.detected", "realtime.error"]).1.state
        = AppState.IDLE_LISTENING
    ∧ SMAction.set_mode_act Mode.in_call
        ∉ startupActions ++ (smRun o smStartup ["wake.detected", "realtime.error"]).2
    ∧ SMAction.set_mode_act Mode.idle
        ∈ (smRun o smStartup ["wake.detected", "realtime.error"]).2 := by
  cases o <;> exact ⟨rfl, by decide, by decide, by decide⟩

/-- Claim C10 counterexample: enqueue two bytes, read a four-byte frame
(zero-padded), enqueue two more bytes, read a two-byte frame: the queue
never overflows, yet the concatenated frames `[1,2,0,0,3,4]` are not a
prefix of the concatenated enqueues `[1,2,3,4]` followed only by zero
padding, because the underrun padding sits in the middle. -/
theorem claim_c10_counterexample :
    speakerRunOk speakerInit
      [SpeakerOp.enq [1, 2], SpeakerOp.read 4, SpeakerOp.enq [3, 4], SpeakerOp.read 2] = true
    ∧ ¬ prefix_zero_pad
        (enqConcat [SpeakerOp.enq [1, 2], SpeakerOp.read 4, SpeakerOp.enq [3, 4],
          SpeakerOp.read 2])
        ((speakerRun speakerInit [SpeakerOp.enq [1, 2], SpeakerOp.read 4,
          SpeakerOp.enq [3, 4], SpeakerOp.read 2]).2.1.flatten) := by
  refine ⟨by decide, ?_⟩
  have h1 : enqConcat [SpeakerOp.enq [1, 2], SpeakerOp.read 4, SpeakerOp.enq [3, 4],
      SpeakerOp.read 2] = [1, 2, 3, 4] := by decide
  have h2 : (speakerRun speakerInit [SpeakerOp.enq [1, 2], SpeakerOp.read 4,
      SpeakerOp.enq [3, 4], SpeakerOp.read 2]).2.1.flatten = [1, 2, 0, 0, 3, 4] := by decide
  rw [h1, h2]
  rintro ⟨k, hk⟩
  have hl := congrArg List.length hk
  simp [List.length_append, List.length_take, List.length_replicate] at hl
  have hk4 : k ≤ 4 := by omega
  interval_cases k <;> exact absurd hk (by decide)

/-- Claim C10 (amended): along any clear-free, overflow-free operation
sequence, the concatenation of the unpadded data portions of the reads
(each callback frame is that data followed by its zero padding) is a
prefix of the concatenation of the enqueued byte strings — nothing is
reordered, duplicated or dropped — and enqueueing the empty byte string
leaves the buffer unchanged. -/
theorem claim_c10_data_integrity (ops : List SpeakerOp)
    (h : speakerRunOk speakerInit ops = true) :
    (∃ t, (speakerRun speakerInit ops).2.2.flatten ++ t = enqConcat ops)
    ∧ (∀ s : SpeakerState, enqueue s [] = s)
    ∧ (∀ (s : SpeakerState) (n : Nat),
        (read_frame s n).1
          = (read_bytes s n).1 ++ List.replicate (n - (read_bytes s n).1.length) 0) := by
  refine ⟨?_, fun s => by simp [enqueue], fun s n => rfl⟩
  refine ⟨(speakerRun speakerInit ops).1.buf ++ (speakerRun speakerInit ops).1.q.flatten, ?_⟩
  have hc := speakerRun_conserves ops speakerInit h
  simpa [speakerInit, List.append_assoc] using hc

/-- Witness for the amended C10: a single enqueue followed by a short
read. -/
theorem claim_c10_witness :
    (∃ t, (speakerRun speakerInit [SpeakerOp.enq [5, 6], SpeakerOp.read 1]).2.2.flatten ++ t
      = enqConcat [SpeakerOp.enq [5, 6], SpeakerOp.read 1])
    ∧ enqueue speakerInit [] = speakerInit :=
  ⟨(claim_c10_data_integrity [SpeakerOp.enq [5, 6], SpeakerOp.read 1] (by decide)).1,
   (claim_c10_data_integrity [] (by decide)).2.1 speakerInit⟩

end HelloGpt
